import Mathlib

/-!
Verification of the landmark-driven jewelry placement engine of the
NAIMME/betav2 repository.  The geometric logic of the three renderer
implementations (canvas `JewelryRenderer`, AR live `ARVirtualTryOn`,
and the detector post-processing in `HandPoseDetector` /
`FaceLandmarkDetector`) is shallowly embedded here: JS number
arithmetic is modelled over ℚ where the code is purely rational
(blends, smoothing) and over ℝ where the code takes square roots or
trigonometric functions; JS `undefined` / missing object keys are
modelled with `Option`; a raw landmark array is a `List (Option P3)`
so that both short arrays and sparse entries are representable; an
uncaught JS exception is an `Except` error.
-/

/-- A 3D point `{x, y, z}` with rational coordinates, standing for the
JS number triples used throughout the source. -/
structure P3 where
  x : ℚ
  y : ℚ
  z : ℚ
deriving DecidableEq, Repr

/-- A 3D point with real coordinates, used for values produced by
square roots and divisions (vector normalisation). -/
structure R3 where
  x : ℝ
  y : ℝ
  z : ℝ

/-- A raw landmark array as delivered by a detector: indexable,
possibly short, possibly with missing entries. -/
abbrev Landmarks := List (Option P3)

/-- JS array indexing `landmarks[i]`: `none` both when the index is
out of range and when the entry itself is missing. -/
def getLm (lm : Landmarks) (i : ℕ) : Option P3 :=
  (lm.get? i).join

namespace JewelryRenderer

/-- `JewelryRenderer.calculateDistance` (JewelryRenderer.js:487-493):
Euclidean distance between two points. -/
noncomputable def calculateDistance (point1 point2 : P3) : ℝ :=
  Real.sqrt (((point2.x - point1.x) ^ 2 + (point2.y - point1.y) ^ 2 +
    (point2.z - point1.z) ^ 2 : ℚ) : ℝ)

/-- `JewelryRenderer.smoothPosition` (JewelryRenderer.js:641-650): with
no previous position the new position passes through; otherwise each
component is blended `previous * f + new * (1 - f)`. -/
def smoothPosition (previousPosition : Option P3) (newPosition : P3)
    (smoothFactor : ℚ) : P3 :=
  match previousPosition with
  | none => newPosition
  | some p =>
    { x := p.x * smoothFactor + newPosition.x * (1 - smoothFactor)
      y := p.y * smoothFactor + newPosition.y * (1 - smoothFactor)
      z := p.z * smoothFactor + newPosition.z * (1 - smoothFactor) }

/-- `this.smoothingFactor = 0.7` (JewelryRenderer.js:27). -/
def smoothingFactor : ℚ := 7 / 10

end JewelryRenderer

/-- An uncaught JS runtime exception; the only kind the embedded code
can raise is a `TypeError` from reading a property of `undefined`. -/
inductive JsError where
  | typeError
deriving DecidableEq, Repr

namespace HandPoseDetector

/-- The `handLandmarkNames` table of `HandPoseDetector.extractKeypoints`
(HandPoseDetector.js:123-145). -/
def handLandmarkNames : List String :=
  ["wrist", "thumb_cmc", "thumb_mcp", "thumb_ip", "thumb_tip",
   "index_finger_mcp", "index_finger_pip", "index_finger_dip", "index_finger_tip",
   "middle_finger_mcp", "middle_finger_pip", "middle_finger_dip", "middle_finger_tip",
   "ring_finger_mcp", "ring_finger_pip", "ring_finger_dip", "ring_finger_tip",
   "pinky_mcp", "pinky_pip", "pinky_dip", "pinky_tip"]

/-- Lookup of a base (non-derived) key in the object built by the
naming loop of `extractKeypoints` (HandPoseDetector.js:148-157): the
key `name` is present exactly when `name` is one of the 21 landmark
names and the entry at its index exists. -/
def baseKeypoint (lm : Landmarks) (name : String) : Option P3 :=
  match handLandmarkNames.findIdx? (fun n => n = name) with
  | some i => getLm lm i
  | none => none

/-- `HandPoseDetector.extractKeypoints` (HandPoseDetector.js:118-185)
as a map from key name to point: the 21 named landmarks plus the three
derived points `ring_position` (midpoint of ring-finger MCP and PIP),
`bracelet_position` (= wrist) and `watch_position`
(wrist·0.8 + pinky MCP·0.2), each present only when its inputs are. -/
def extractKeypoints (lm : Landmarks) : String → Option P3 := fun name =>
  if name = "ring_position" then
    match getLm lm 13, getLm lm 14 with
    | some a, some b =>
        some ⟨(a.x + b.x) / 2, (a.y + b.y) / 2, (a.z + b.z) / 2⟩
    | _, _ => none
  else if name = "bracelet_position" then getLm lm 0
  else if name = "watch_position" then
    match getLm lm 0, getLm lm 17 with
    | some w, some p =>
        some ⟨w.x * (8/10) + p.x * (2/10), w.y * (8/10) + p.y * (2/10),
              w.z * (8/10) + p.z * (2/10)⟩
    | _, _ => none
  else baseKeypoint lm name

/-- The full mapping entry point, including the
`prediction.keypoints3D || prediction.keypoints` selection
(HandPoseDetector.js:119) and the uncaught `TypeError` raised by
`landmarks.length` when both fields are absent. -/
def extractKeypointsChecked (keypoints3D keypoints : Option Landmarks) :
    Except JsError (String → Option P3) :=
  match keypoints3D.orElse (fun _ => keypoints) with
  | none => .error .typeError
  | some lm => .ok (extractKeypoints lm)

end HandPoseDetector

/-- JS `Math.atan2 (y, x)`: the full-quadrant arc tangent, in radians. -/
noncomputable def atan2 (y x : ℝ) : ℝ :=
  if 0 < x then Real.arctan (y / x)
  else if x < 0 ∧ 0 ≤ y then Real.arctan (y / x) + Real.pi
  else if x < 0 then Real.arctan (y / x) - Real.pi
  else if 0 < y then Real.pi / 2
  else if y < 0 then -(Real.pi / 2)
  else 0

namespace ARVirtualTryOn

/-- The ring placement computed by the `ring` case of `drawHandItem`
(ARVirtualTryOn.js:751-785): a 2D anchor and a rotation in degrees. -/
structure RingPlacement where
  ringX : ℚ
  ringY : ℚ
  angle : ℝ

/-- The `ring` case of `drawHandItem`: looks up the configured finger's
`<i>_mcp` and `<i>_pip` keys; when both are present the anchor is
`base·0.3 + middle·0.7` and the rotation is `atan2` of the MCP→PIP
vector converted to degrees (ARVirtualTryOn.js:752-767). -/
noncomputable def ringFromKeypoints (keypoints : String → Option P3)
    (fingerIndex : ℕ) : Option RingPlacement :=
  match keypoints (toString fingerIndex ++ "_mcp"),
        keypoints (toString fingerIndex ++ "_pip") with
  | some fingerBase, some fingerMiddle =>
      some { ringX := fingerBase.x * (3/10) + fingerMiddle.x * (7/10)
             ringY := fingerBase.y * (3/10) + fingerMiddle.y * (7/10)
             angle := atan2 ((fingerMiddle.y - fingerBase.y : ℚ) : ℝ)
                 ((fingerMiddle.x - fingerBase.x : ℚ) : ℝ) * (180 / Real.pi) }
  | _, _ => none

/-- The `watch` case of `drawHandItem` anchors at the plain `wrist`
keypoint (ARVirtualTryOn.js:810-819). -/
def drawWatchAnchor (keypoints : String → Option P3) : Option P3 :=
  keypoints "wrist"

end ARVirtualTryOn

namespace JewelryRenderer

/-- `JewelryRenderer.getFingerRingPosition` (JewelryRenderer.js:426-446):
blend `base·0.3 + middle·0.7` of the joints at indices
`fingerIndex*4+1` and `fingerIndex*4+2`; `null` when either is missing
(the `try`/`catch`). -/
def getFingerRingPosition (lm : Landmarks) (fingerIndex : ℕ) : Option P3 :=
  match getLm lm (fingerIndex * 4 + 1), getLm lm (fingerIndex * 4 + 2) with
  | some baseJoint, some middleJoint =>
      some ⟨baseJoint.x * (3/10) + middleJoint.x * (7/10),
            baseJoint.y * (3/10) + middleJoint.y * (7/10),
            baseJoint.z * (3/10) + middleJoint.z * (7/10)⟩
  | _, _ => none

/-- `JewelryRenderer.getWatchPosition` (JewelryRenderer.js:461-480):
`wrist·0.8 + palm·0.2` where `palm` is landmark 9 (the middle-finger
MCP), not the pinky MCP; `null` when either is missing. -/
def getWatchPosition (lm : Landmarks) : Option P3 :=
  match getLm lm 0, getLm lm 9 with
  | some wrist, some palm =>
      some ⟨wrist.x * (8/10) + palm.x * (2/10),
            wrist.y * (8/10) + palm.y * (2/10),
            wrist.z * (8/10) + palm.z * (2/10)⟩
  | _, _ => none

end JewelryRenderer

/-- Concrete keypoint set for the ring claim: ring-finger MCP at the
origin and PIP at (10,0), under the key names used by `drawHandItem`. -/
def kpRing : String → Option P3 := fun name =>
  if name = "3_mcp" then some ⟨0, 0, 0⟩
  else if name = "3_pip" then some ⟨10, 0, 0⟩
  else none

/-- Concrete landmark array for the ring claim: entries only at indices
13 (ring-finger MCP, origin) and 14 (ring-finger PIP, (10,0)). -/
def lmRing : Landmarks :=
  List.replicate 13 none ++ [some ⟨0, 0, 0⟩, some ⟨10, 0, 0⟩]

/-- Concrete landmark array for the watch claim: wrist (index 0) at
(0.5, 0.8, 0), middle-finger MCP (index 9) at (0.9, 0.9, 0) and pinky
MCP (index 17) at (0.6, 0.75, 0). -/
def lmWatch : Landmarks :=
  [some ⟨1/2, 4/5, 0⟩, none, none, none, none, none, none, none, none,
   some ⟨9/10, 9/10, 0⟩, none, none, none, none, none, none, none,
   some ⟨3/5, 3/4, 0⟩]

/-- Handedness of a detected hand. -/
inductive Handedness where
  | left
  | right
deriving DecidableEq, Repr

/-- A detection result for one hand: handedness plus named keypoints. -/
structure Hand where
  handedness : Handedness
  keypoints : String → Option P3

namespace ARVirtualTryOn

/-- The hand-selection logic of `drawHandItem`
(ARVirtualTryOn.js:726-742): with `preferredHand === 'left'`, find a
`Left` hand, else fall back to the first detection; in every other
case find a `Right` hand, else fall back to the first detection. -/
def selectHand (preferredHand : String) (handDetections : List Hand) :
    Option Hand :=
  if preferredHand = "left" then
    (handDetections.find? (fun h => h.handedness = Handedness.left)).orElse
      (fun _ => handDetections.head?)
  else
    (handDetections.find? (fun h => h.handedness = Handedness.right)).orElse
      (fun _ => handDetections.head?)

/-- The `bracelet` case of `drawHandItem` (ARVirtualTryOn.js:787-807):
select a hand, then anchor at its `wrist` keypoint; no transform when
no hand or no wrist. -/
def drawBraceletAnchor (preferredHand : String) (handDetections : List Hand) :
    Option P3 :=
  match selectHand preferredHand handDetections with
  | none => none
  | some targetHand => targetHand.keypoints "wrist"

end ARVirtualTryOn

namespace JewelryRenderer

/-- The hand-selection ternary shared by `renderRing`, `renderBracelet`
and `renderWatch` (JewelryRenderer.js:233-235):
`preferredHand === 'left' ? leftHand : (rightHand || leftHand)` —
note the `'left'` branch has no fallback to the right hand. -/
def chooseHand (preferredHand : Option String) (leftHand rightHand : Option Hand) :
    Option Hand :=
  if preferredHand = some "left" then leftHand
  else rightHand.orElse (fun _ => leftHand)

end JewelryRenderer

/-- A concrete right hand whose wrist keypoint is (1, 2, 0). -/
def handR : Hand :=
  { handedness := Handedness.right
    keypoints := fun n => if n = "wrist" then some ⟨1, 2, 0⟩ else none }

namespace FaceLandmarkDetector

/-- The named face keypoints produced by
`FaceLandmarkDetector.extractKeypoints` (FaceLandmarkDetector.js:145-185). -/
structure FaceKeypoints where
  leftEar : Option P3
  rightEar : Option P3
  leftEye : Option P3
  rightEye : Option P3
  noseTip : Option P3
  upperLip : Option P3
  lowerLip : Option P3
  neckBase : Option P3
deriving DecidableEq, Repr

/-- The derived neck-base point (FaceLandmarkDetector.js:176-180):
x and z are ear midpoints, y is the larger ear y plus a fixed 50. -/
def neckBaseOf (leftEar rightEar : P3) : P3 :=
  { x := (leftEar.x + rightEar.x) / 2
    y := max leftEar.y rightEar.y + 50
    z := (leftEar.z + rightEar.z) / 2 }

/-- `FaceLandmarkDetector.extractKeypoints`
(FaceLandmarkDetector.js:145-185): selects
`prediction.keypoints || prediction.mesh`, returns the empty set when
that is absent or empty, otherwise maps fixed indices (each with a
fallback index) to named points and derives `neckBase` when both ears
are present. -/
def extractKeypoints (keypoints mesh : Option Landmarks) : FaceKeypoints :=
  match keypoints.orElse (fun _ => mesh) with
  | none => ⟨none, none, none, none, none, none, none, none⟩
  | some lm =>
    if lm.length = 0 then ⟨none, none, none, none, none, none, none, none⟩
    else
      let leftEar := (getLm lm 234).orElse (fun _ => getLm lm 93)
      let rightEar := (getLm lm 454).orElse (fun _ => getLm lm 323)
      let leftEye := (getLm lm 33).orElse (fun _ => getLm lm 159)
      let rightEye := (getLm lm 263).orElse (fun _ => getLm lm 386)
      let noseTip := (getLm lm 1).orElse (fun _ => getLm lm 19)
      let upperLip := (getLm lm 13).orElse (fun _ => getLm lm 0)
      let lowerLip := (getLm lm 14).orElse (fun _ => getLm lm 17)
      let neckBase := match leftEar, rightEar with
        | some l, some r => some (neckBaseOf l r)
        | _, _ => none
      ⟨leftEar, rightEar, leftEye, rightEye, noseTip, upperLip, lowerLip, neckBase⟩

/-- Follows the spec's words (a refinement target, not source code):
the neck base as the midpoint of the two ear points, offset downward
(larger y) by a fraction `f` of the inter-ear distance. -/
noncomputable def specNeckBase (f : ℝ) (l r : P3) : R3 :=
  { x := (((l.x + r.x) / 2 : ℚ) : ℝ)
    y := (((l.y + r.y) / 2 : ℚ) : ℝ) + f * JewelryRenderer.calculateDistance l r
    z := (((l.z + r.z) / 2 : ℚ) : ℝ) }

/-- The code's derived neck base, cast to real coordinates so it can be
compared with `specNeckBase`. -/
noncomputable def neckBaseOfR (l r : P3) : R3 :=
  { x := (((neckBaseOf l r).x : ℚ) : ℝ)
    y := (((neckBaseOf l r).y : ℚ) : ℝ)
    z := (((neckBaseOf l r).z : ℚ) : ℝ) }

end FaceLandmarkDetector

namespace JewelryRenderer

/-- The `smoothedPositions.earrings` slot state
(JewelryRenderer.js:18-19). -/
structure EarringsState where
  left : Option P3
  right : Option P3
deriving DecidableEq, Repr

/-- The pair of smoothed earring positions drawn in one frame. -/
structure EarringsOutput where
  leftPos : P3
  rightPos : P3
deriving DecidableEq, Repr

/-- One frame of `JewelryRenderer.renderEarrings`
(JewelryRenderer.js:121-183) as a state transition: with no face the
method returns at once (no output, state untouched); with a face but a
missing ear landmark (index 234 or 454) it also returns with the state
untouched; otherwise it first overwrites the slot state with the
smoothed positions and then draws — unless an eye landmark (index 27
or 33) is missing, in which case `calculateDistance` throws after the
state was already mutated and nothing is drawn. -/
def renderEarringsStep (state : EarringsState) (face : Option Landmarks) :
    EarringsState × Option EarringsOutput :=
  match face with
  | none => (state, none)
  | some lm =>
    match getLm lm 234, getLm lm 454 with
    | some leftEarPoint, some rightEarPoint =>
        let newLeft := smoothPosition state.left leftEarPoint smoothingFactor
        let newRight := smoothPosition state.right rightEarPoint smoothingFactor
        match getLm lm 27, getLm lm 33 with
        | some _, some _ =>
            (⟨some newLeft, some newRight⟩, some ⟨newLeft, newRight⟩)
        | _, _ => (⟨some newLeft, some newRight⟩, none)
    | _, _ => (state, none)

end JewelryRenderer

/-- A concrete full face landmark array: every index holds (1, 1, 0). -/
def lmFace : Landmarks := List.replicate 455 (some ⟨1, 1, 0⟩)

namespace JewelryRenderer

/-- `JewelryRenderer.getNeckPosition` (JewelryRenderer.js:407-423): the
chin landmark (index 152) offset down by the fixed 0.1; `null` when
the chin is missing (the `try`/`catch`). -/
def getNeckPosition (lm : Landmarks) : Option P3 :=
  match getLm lm 152 with
  | some chin => some ⟨chin.x, chin.y + 1/10, chin.z⟩
  | none => none

/-- `JewelryRenderer.estimateShoulderWidth` (JewelryRenderer.js:496-513):
three times the distance between the cheek landmarks 234 and 454, with
the `catch` fallback 0.3 when either is missing. -/
noncomputable def estimateShoulderWidth (lm : Landmarks) : ℝ :=
  match getLm lm 234, getLm lm 454 with
  | some a, some b => calculateDistance a b * 3
  | _, _ => 3/10

/-- The necklace scale `shoulderWidth * (sizeAdjustment || 1.0)`
(JewelryRenderer.js:208-209); the JS `||` turns an absent or zero
`sizeAdjustment` into 1.0 but applies no positivity guard to the
product. -/
noncomputable def necklaceScale (lm : Landmarks) (sizeAdjustment : Option ℚ) : ℝ :=
  estimateShoulderWidth lm *
    (((match sizeAdjustment with
       | none => 1
       | some a => if a = 0 then 1 else a) : ℚ) : ℝ)

/-- The anchor point and scale drawn for a necklace in one frame. -/
structure NecklaceOutput where
  neck : P3
  scale : ℝ

/-- One frame of `JewelryRenderer.renderNecklace`
(JewelryRenderer.js:188-226) as a state transition over the
`smoothedPositions.necklace` slot: no face or no chin → no output and
untouched state; otherwise the smoothed neck point is stored and drawn
with `necklaceScale` — which is emitted as-is even when it is zero or
negative. -/
noncomputable def renderNecklaceStep (state : Option P3) (face : Option Landmarks)
    (sizeAdjustment : Option ℚ) : Option P3 × Option NecklaceOutput :=
  match face with
  | none => (state, none)
  | some lm =>
    match getNeckPosition lm with
    | none => (state, none)
    | some neckPoint =>
        let neck := smoothPosition state neckPoint smoothingFactor
        (some neck, some ⟨neck, necklaceScale lm sizeAdjustment⟩)

/-- The earrings scale `eyeDistance * sizeAdjustment || 0.15`
(JewelryRenderer.js:149-154): `none` models the uncaught `TypeError`
when an eye landmark (index 27 or 33) is missing; an absent
`sizeAdjustment` makes the JS product `NaN` (falsy) and a zero product
is falsy, both replaced by the 0.15 default. -/
noncomputable def earringsScale (lm : Landmarks) (sizeAdjustment : Option ℚ) :
    Option ℝ :=
  match getLm lm 27, getLm lm 33 with
  | some p1, some p2 =>
      match sizeAdjustment with
      | none => some (3/20)
      | some adj =>
          haveI := Classical.propDecidable (calculateDistance p1 p2 * (adj : ℝ) = 0)
          some (if calculateDistance p1 p2 * (adj : ℝ) = 0 then 3/20
                else calculateDistance p1 p2 * (adj : ℝ))
  | _, _ => none

end JewelryRenderer

namespace HandPoseDetector

/-- `HandPoseDetector.normalizeVector` (HandPoseDetector.js:414-430):
the zero vector maps to the zero vector, otherwise each component is
divided by the magnitude.  The JS guard `magnitude === 0` is expressed
as the sum of squares being 0, which is equivalent since the sum is
nonnegative and the square root vanishes exactly on 0. -/
noncomputable def normalizeVector (v : P3) : R3 :=
  if (v.x ^ 2 + v.y ^ 2 + v.z ^ 2 : ℚ) = 0 then ⟨0, 0, 0⟩
  else
    let magnitude : ℝ := Real.sqrt ((v.x ^ 2 + v.y ^ 2 + v.z ^ 2 : ℚ) : ℝ)
    ⟨(v.x : ℝ) / magnitude, (v.y : ℝ) / magnitude, (v.z : ℝ) / magnitude⟩

/-- The per-segment lengths of one finger
(HandPoseDetector.js:280-296). -/
structure Segments where
  mcpToPip : ℝ
  pipToDip : ℝ
  dipToTip : ℝ

/-- The result of `calculateFingerDimensions`
(HandPoseDetector.js:259-315). -/
structure FingerDimensions where
  width : ℝ
  length : ℝ
  segments : Segments

/-- The `catch` default of `calculateFingerDimensions`
(HandPoseDetector.js:307-314). -/
def zeroFingerDimensions : FingerDimensions :=
  { width := 0, length := 0, segments := ⟨0, 0, 0⟩ }

/-- `HandPoseDetector.calculateFingerDimensions`
(HandPoseDetector.js:259-315): lengths from the four joints of the
finger starting at `baseIndex`; its own `try`/`catch` returns the zero
record when any joint access throws. -/
noncomputable def calculateFingerDimensions (lm : Landmarks) (baseIndex : ℕ) :
    FingerDimensions :=
  match getLm lm baseIndex, getLm lm (baseIndex + 1),
        getLm lm (baseIndex + 2), getLm lm (baseIndex + 3) with
  | some mcp, some pip, some dip, some tip =>
      let fingerLength := JewelryRenderer.calculateDistance mcp tip
      { width := fingerLength * (3/20)
        length := fingerLength
        segments :=
          { mcpToPip := JewelryRenderer.calculateDistance mcp pip
            pipToDip := JewelryRenderer.calculateDistance pip dip
            dipToTip := JewelryRenderer.calculateDistance dip tip } }
  | _, _, _, _ => zeroFingerDimensions

/-- The four per-finger measurements (HandPoseDetector.js:218-223). -/
structure FingerMeasurements where
  index : FingerDimensions
  middle : FingerDimensions
  ring : FingerDimensions
  pinky : FingerDimensions

/-- The result of `calculateHandMeasurements`
(HandPoseDetector.js:193-250). -/
structure Measurements where
  palmWidth : ℝ
  handLength : ℝ
  fingerMeasurements : FingerMeasurements
  wristCircumference : ℝ
  aspectRatio : ℝ

/-- The `catch` default of `calculateHandMeasurements`
(HandPoseDetector.js:236-248): every field zero. -/
def zeroMeasurements : Measurements :=
  { palmWidth := 0, handLength := 0
    fingerMeasurements :=
      ⟨zeroFingerDimensions, zeroFingerDimensions,
       zeroFingerDimensions, zeroFingerDimensions⟩
    wristCircumference := 0, aspectRatio := 0 }

/-- `HandPoseDetector.calculateHandMeasurements`
(HandPoseDetector.js:193-250).  The body is wrapped in `try`/`catch`:
any missing landmark among indices 17, 5, 0 and 12 makes a property
access throw, and the `catch` returns the all-zero record instead, so
the function never throws (the `landmarks[...]` accesses are inside
the `try`, including the case where the landmark array itself is
absent). -/
noncomputable def calculateHandMeasurements (keypoints3D keypoints : Option Landmarks) :
    Measurements :=
  match keypoints3D.orElse (fun _ => keypoints) with
  | none => zeroMeasurements
  | some lm =>
    match getLm lm 17, getLm lm 5, getLm lm 0, getLm lm 12 with
    | some pinkyMcp, some indexMcp, some wrist, some middleTip =>
        let palmWidth := JewelryRenderer.calculateDistance pinkyMcp indexMcp
        let handLength := JewelryRenderer.calculateDistance wrist middleTip
        { palmWidth := palmWidth
          handLength := handLength
          fingerMeasurements :=
            { index := calculateFingerDimensions lm 5
              middle := calculateFingerDimensions lm 9
              ring := calculateFingerDimensions lm 13
              pinky := calculateFingerDimensions lm 17 }
          wristCircumference := palmWidth * (5/2)
          aspectRatio := handLength / palmWidth }
    | _, _, _, _ => zeroMeasurements

/-- The pitch/yaw/roll angles in degrees
(HandPoseDetector.js:383-388). -/
structure OrientationAngles where
  pitch : ℝ
  yaw : ℝ
  roll : ℝ

/-- The normalised orientation vectors
(HandPoseDetector.js:389-393). -/
structure OrientationVectors where
  palmDirection : R3
  fingerDirection : R3
  palmNormal : R3

/-- The result of `calculateHandOrientation`
(HandPoseDetector.js:323-406). -/
structure Orientation where
  angles : OrientationAngles
  vectors : OrientationVectors

/-- The `catch` default of `calculateHandOrientation`
(HandPoseDetector.js:396-405): zero angles and fixed unit vectors. -/
def defaultOrientation : Orientation :=
  { angles := ⟨0, 0, 0⟩
    vectors := ⟨⟨0, 1, 0⟩, ⟨0, 1, 0⟩, ⟨1, 0, 0⟩⟩ }

/-- `HandPoseDetector.calculateHandOrientation`
(HandPoseDetector.js:323-406).  As with the measurements, the body is
wrapped in `try`/`catch`: a missing landmark among indices 0, 9, 12, 5
and 17 (or an absent landmark array) makes an access throw and the
`catch` returns `defaultOrientation`, so the function never throws;
`Math.acos` and `Math.atan2` cannot throw. -/
noncomputable def calculateHandOrientation (keypoints3D keypoints : Option Landmarks) :
    Orientation :=
  match keypoints3D.orElse (fun _ => keypoints) with
  | none => defaultOrientation
  | some lm =>
    match getLm lm 0, getLm lm 9, getLm lm 12, getLm lm 5, getLm lm 17 with
    | some wrist, some middleMcp, some middleTip, some indexMcp, some pinkyMcp =>
        let palmDirection : P3 :=
          ⟨middleMcp.x - wrist.x, middleMcp.y - wrist.y, middleMcp.z - wrist.z⟩
        let fingerDirection : P3 :=
          ⟨middleTip.x - middleMcp.x, middleTip.y - middleMcp.y,
           middleTip.z - middleMcp.z⟩
        let palmWidthV : P3 :=
          ⟨pinkyMcp.x - indexMcp.x, pinkyMcp.y - indexMcp.y,
           pinkyMcp.z - indexMcp.z⟩
        let palmNormal : P3 :=
          ⟨palmDirection.y * palmWidthV.z - palmDirection.z * palmWidthV.y,
           palmDirection.z * palmWidthV.x - palmDirection.x * palmWidthV.z,
           palmDirection.x * palmWidthV.y - palmDirection.y * palmWidthV.x⟩
        let nPD := normalizeVector palmDirection
        let nFD := normalizeVector fingerDirection
        let nPN := normalizeVector palmNormal
        let nProj := normalizeVector ⟨palmDirection.x, 0, palmDirection.z⟩
        { angles :=
            { pitch := Real.arccos nPD.y * (180 / Real.pi)
              yaw := atan2 nProj.x nProj.z * (180 / Real.pi)
              roll := atan2 nPN.x nPN.z * (180 / Real.pi) }
          vectors :=
            { palmDirection := nPD, fingerDirection := nFD, palmNormal := nPN } }
    | _, _, _, _, _ => defaultOrientation

end HandPoseDetector

/-- C1: for every previous anchor value `p` and current value `c`, the
temporal smoother with the default factor α = 0.7 returns
`p·α + c·(1−α)` independently in x, y and z; in particular previous =
100 and current = 0 give exactly 70 in every component. -/
theorem c1_smoother_exponential_blend (p c : P3) :
    JewelryRenderer.smoothPosition (some p) c JewelryRenderer.smoothingFactor =
      { x := p.x * (7/10) + c.x * (1 - 7/10)
        y := p.y * (7/10) + c.y * (1 - 7/10)
        z := p.z * (7/10) + c.z * (1 - 7/10) } ∧
    JewelryRenderer.smoothPosition (some ⟨100, 100, 100⟩) ⟨0, 0, 0⟩
      JewelryRenderer.smoothingFactor = ⟨70, 70, 70⟩ := by
  refine ⟨rfl, ?_⟩
  show JewelryRenderer.smoothPosition (some ⟨100, 100, 100⟩) ⟨0, 0, 0⟩ (7/10) = ⟨70, 70, 70⟩
  simp [JewelryRenderer.smoothPosition]
  norm_num

/-- Helper: `atan2 0 x = 0` for positive `x`. -/
theorem atan2_zero_of_pos (x : ℝ) (hx : 0 < x) : atan2 0 x = 0 := by
  simp [atan2, hx, Real.arctan_zero]

/-- Helper: the `watch_position` entry of the hand keypoint map, when
wrist and pinky MCP are present. -/
theorem extractKeypoints_watch_some (lm : Landmarks) (w p : P3)
    (hw : getLm lm 0 = some w) (hp : getLm lm 17 = some p) :
    HandPoseDetector.extractKeypoints lm "watch_position" =
      some ⟨w.x * (8/10) + p.x * (2/10), w.y * (8/10) + p.y * (2/10),
            w.z * (8/10) + p.z * (2/10)⟩ := by
  show (match getLm lm 0, getLm lm 17 with
        | some w, some p =>
            some (⟨w.x * (8/10) + p.x * (2/10), w.y * (8/10) + p.y * (2/10),
                   w.z * (8/10) + p.z * (2/10)⟩ : P3)
        | _, _ => none) = _
  rw [hw, hp]

/-- Helper: the `wrist` entry of the hand keypoint map is landmark 0. -/
theorem extractKeypoints_wrist (lm : Landmarks) :
    HandPoseDetector.extractKeypoints lm "wrist" = getLm lm 0 := rfl

/-- C2 fails at its own concrete instance: with MCP = (0,0) and
PIP = (10,0) the emitted ring anchor is `0.3·MCP + 0.7·PIP = (7,0)`,
not `(3,0)` as the claim asserts. -/
theorem c2_counterexample_ring_anchor :
    (ARVirtualTryOn.ringFromKeypoints kpRing 3).map (fun r => (r.ringX, r.ringY)) =
      some (7, 0) ∧ ((7 : ℚ), (0 : ℚ)) ≠ ((3 : ℚ), (0 : ℚ)) := by
  constructor
  · have hmcp : kpRing (toString 3 ++ "_mcp") = some ⟨0, 0, 0⟩ := rfl
    have hpip : kpRing (toString 3 ++ "_pip") = some ⟨10, 0, 0⟩ := rfl
    simp only [ARVirtualTryOn.ringFromKeypoints, hmcp, hpip, Option.map_some]
    norm_num
  · norm_num

/-- C2 (amended): for every keypoint set containing the configured
finger's MCP and PIP, the ring case of `drawHandItem` emits the anchor
`0.3·MCP + 0.7·PIP` with rotation the `atan2` angle in degrees from
MCP to PIP, and `getFingerRingPosition` computes the same blend; at
MCP = (0,0), PIP = (10,0) the anchor is (7,0) and the rotation 0°. -/
theorem c2_ring_resolver (kp : String → Option P3) (lm : Landmarks)
    (fi : ℕ) (b m : P3)
    (hb : kp (toString fi ++ "_mcp") = some b)
    (hm : kp (toString fi ++ "_pip") = some m)
    (hb2 : getLm lm (fi * 4 + 1) = some b)
    (hm2 : getLm lm (fi * 4 + 2) = some m) :
    ARVirtualTryOn.ringFromKeypoints kp fi = some
      { ringX := b.x * (3/10) + m.x * (7/10)
        ringY := b.y * (3/10) + m.y * (7/10)
        angle := atan2 ((m.y - b.y : ℚ) : ℝ)
            ((m.x - b.x : ℚ) : ℝ) * (180 / Real.pi) } ∧
    JewelryRenderer.getFingerRingPosition lm fi = some
      ⟨b.x * (3/10) + m.x * (7/10), b.y * (3/10) + m.y * (7/10),
       b.z * (3/10) + m.z * (7/10)⟩ ∧
    (ARVirtualTryOn.ringFromKeypoints kpRing 3).map
      (fun r => (r.ringX, r.ringY, r.angle)) = some (7, 0, 0) := by
  refine ⟨?_, ?_, ?_⟩
  · simp [ARVirtualTryOn.ringFromKeypoints, hb, hm]
  · simp [JewelryRenderer.getFingerRingPosition, hb2, hm2]
  · have hmcp : kpRing (toString 3 ++ "_mcp") = some ⟨0, 0, 0⟩ := rfl
    have hpip : kpRing (toString 3 ++ "_pip") = some ⟨10, 0, 0⟩ := rfl
    simp only [ARVirtualTryOn.ringFromKeypoints, hmcp, hpip, Option.map_some]
    norm_num
    exact Or.inl (atan2_zero_of_pos 10 (by norm_num))

/-- C2 witness: the amended theorem applied at the concrete keypoint
sets `kpRing` and `lmRing`. -/
theorem c2_ring_resolver_witness :
    JewelryRenderer.getFingerRingPosition lmRing 3 = some ⟨7, 0, 0⟩ := by
  have h := c2_ring_resolver kpRing lmRing 3 ⟨0, 0, 0⟩ ⟨10, 0, 0⟩
    rfl rfl rfl rfl
  rw [h.2.1]
  norm_num

/-- C3 fails in its resolver half: the derived `watch_position` of
`lmWatch` is the claimed composite (0.52, 0.79, 0), but neither watch
resolver anchors there — the AR renderer anchors at the wrist itself
and the canvas renderer at `wrist·0.8 + landmark 9·0.2`. -/
theorem c3_counterexample_watch_anchor :
    HandPoseDetector.extractKeypoints lmWatch "watch_position" =
      some ⟨13/25, 79/100, 0⟩ ∧
    ARVirtualTryOn.drawWatchAnchor (HandPoseDetector.extractKeypoints lmWatch) ≠
      some ⟨13/25, 79/100, 0⟩ ∧
    JewelryRenderer.getWatchPosition lmWatch ≠ some ⟨13/25, 79/100, 0⟩ := by
  have hw : getLm lmWatch 0 = some ⟨1/2, 4/5, 0⟩ := rfl
  have hp : getLm lmWatch 17 = some ⟨3/5, 3/4, 0⟩ := rfl
  refine ⟨?_, ?_, ?_⟩
  · rw [extractKeypoints_watch_some lmWatch _ _ hw hp]
    norm_num
  · rw [show ARVirtualTryOn.drawWatchAnchor (HandPoseDetector.extractKeypoints lmWatch) =
      some ⟨1/2, 4/5, 0⟩ from rfl]
    simp only [ne_eq, Option.some.injEq, P3.mk.injEq]
    norm_num
  · rw [show JewelryRenderer.getWatchPosition lmWatch =
      some ⟨1/2 * (8/10) + 9/10 * (2/10), 4/5 * (8/10) + 9/10 * (2/10),
            0 * (8/10) + 0 * (2/10)⟩ from rfl]
    simp only [ne_eq, Option.some.injEq, P3.mk.injEq]
    norm_num

/-- C3 (amended): for every hand keypoint set containing wrist and
pinky MCP, the derived `watch_position` equals
`wrist·0.8 + pinky_mcp·0.2` component-wise; but the AR watch resolver
anchors at the plain wrist keypoint and the canvas resolver at
`wrist·0.8 + (landmark 9, the middle-finger MCP)·0.2`, not at that
composite. -/
theorem c3_watch_position_composite (lm : Landmarks) (w p palm : P3)
    (hw : getLm lm 0 = some w) (hp : getLm lm 17 = some p)
    (hpalm : getLm lm 9 = some palm) :
    HandPoseDetector.extractKeypoints lm "watch_position" =
      some ⟨w.x * (8/10) + p.x * (2/10), w.y * (8/10) + p.y * (2/10),
            w.z * (8/10) + p.z * (2/10)⟩ ∧
    ARVirtualTryOn.drawWatchAnchor (HandPoseDetector.extractKeypoints lm) = some w ∧
    JewelryRenderer.getWatchPosition lm =
      some ⟨w.x * (8/10) + palm.x * (2/10), w.y * (8/10) + palm.y * (2/10),
            w.z * (8/10) + palm.z * (2/10)⟩ := by
  refine ⟨?_, ?_, ?_⟩
  · exact extractKeypoints_watch_some lm w p hw hp
  · show HandPoseDetector.extractKeypoints lm "wrist" = some w
    rw [extractKeypoints_wrist, hw]
  · simp [JewelryRenderer.getWatchPosition, hw, hpalm]

/-- C3 witness: the amended theorem applied at the concrete landmark
array `lmWatch`. -/
theorem c3_watch_position_composite_witness :
    ARVirtualTryOn.drawWatchAnchor (HandPoseDetector.extractKeypoints lmWatch) =
      some ⟨1/2, 4/5, 0⟩ ∧
    JewelryRenderer.getWatchPosition lmWatch = some ⟨29/50, 41/50, 0⟩ := by
  have h := c3_watch_position_composite lmWatch ⟨1/2, 4/5, 0⟩ ⟨3/5, 3/4, 0⟩
    ⟨9/10, 9/10, 0⟩ rfl rfl rfl
  refine ⟨h.2.1, ?_⟩
  rw [h.2.2]
  norm_num

/-- C4: the fallback the claim describes is implemented by
`drawHandItem` — with `preferredHand = 'left'` and only a right hand
detected, the AR resolver selects that hand and emits a transform
anchored at its wrist — but the canvas renderer's hand-selection
ternary (`renderRing`/`renderBracelet`/`renderWatch`) evaluates to no
hand at the same input, so those resolvers emit nothing, contradicting
the documented "preference or availability" fallback. -/
theorem c4_hand_fallback_evaluation :
    JewelryRenderer.chooseHand (some "left") none (some handR) = none ∧
    ARVirtualTryOn.selectHand "left" [handR] = some handR ∧
    ARVirtualTryOn.drawBraceletAnchor "left" [handR] = some ⟨1, 2, 0⟩ ∧
    handR.handedness = Handedness.right := by
  refine ⟨rfl, rfl, rfl, rfl⟩

/-- Helper: with both ears present in a nonempty landmark list, the
face mapping's `neckBase` is the code's derived point. -/
theorem extractKeypoints_neckBase (lm : Landmarks) (l r : P3)
    (hne : lm ≠ [])
    (hl : (getLm lm 234).orElse (fun _ => getLm lm 93) = some l)
    (hr : (getLm lm 454).orElse (fun _ => getLm lm 323) = some r) :
    (FaceLandmarkDetector.extractKeypoints (some lm) none).neckBase =
      some (FaceLandmarkDetector.neckBaseOf l r) := by
  cases lm with
  | nil => exact absurd rfl hne
  | cons a as =>
    have h : (FaceLandmarkDetector.extractKeypoints (some (a :: as)) none).neckBase =
        (match (getLm (a :: as) 234).orElse (fun _ => getLm (a :: as) 93),
               (getLm (a :: as) 454).orElse (fun _ => getLm (a :: as) 323) with
         | some l, some r => some (FaceLandmarkDetector.neckBaseOf l r)
         | _, _ => none) := rfl
    rw [h, hl, hr]

/-- C5 fails as stated: no single fraction `f` of the inter-ear
distance makes the code's neck base equal to the midpoint offset by
`f`·distance — with ears at distance 2 the fixed `+50` forces
`f = 25`, with ears at distance 4 it forces `f = 12.5`. -/
theorem c5_counterexample_neckbase :
    ¬ ∃ f : ℝ, ∀ l r : P3,
      FaceLandmarkDetector.neckBaseOfR l r = FaceLandmarkDetector.specNeckBase f l r := by
  rintro ⟨f, hf⟩
  have h1 := congrArg R3.y (hf ⟨0, 0, 0⟩ ⟨2, 0, 0⟩)
  have h2 := congrArg R3.y (hf ⟨0, 0, 0⟩ ⟨4, 0, 0⟩)
  simp only [FaceLandmarkDetector.neckBaseOfR, FaceLandmarkDetector.specNeckBase,
    FaceLandmarkDetector.neckBaseOf, JewelryRenderer.calculateDistance] at h1 h2
  norm_num at h1 h2
  rw [show ((4 : ℝ) = 2 ^ 2) by norm_num, Real.sqrt_sq (by norm_num : (0:ℝ) ≤ 2)] at h1
  rw [show ((16 : ℝ) = 4 ^ 2) by norm_num, Real.sqrt_sq (by norm_num : (0:ℝ) ≤ 4)] at h2
  nlinarith [h1, h2]

/-- C5 (amended): for every face landmark list containing both ears,
the derived `neckBase` has the ear-midpoint x and z, but its y is the
larger (lower on screen) of the two ear y-coordinates plus a fixed
offset of 50 units — not a configurable fraction of the inter-ear
distance. -/
theorem c5_neckbase_formula (lm : Landmarks) (l r : P3)
    (hne : lm ≠ [])
    (hl : (getLm lm 234).orElse (fun _ => getLm lm 93) = some l)
    (hr : (getLm lm 454).orElse (fun _ => getLm lm 323) = some r) :
    (FaceLandmarkDetector.extractKeypoints (some lm) none).neckBase =
      some ⟨(l.x + r.x) / 2, max l.y r.y + 50, (l.z + r.z) / 2⟩ := by
  rw [extractKeypoints_neckBase lm l r hne hl hr]
  rfl

/-- C5 witness: the amended theorem applied at a full landmark list
with all points at (1, 1, 0); the neck base is (1, 51, 0). -/
theorem c5_neckbase_formula_witness :
    (FaceLandmarkDetector.extractKeypoints (some lmFace) none).neckBase =
      some ⟨1, 51, 0⟩ := by
  have h := c5_neckbase_formula lmFace ⟨1, 1, 0⟩ ⟨1, 1, 0⟩
    (fun hE => by
      have h455 : lmFace.length = 455 := by
        rw [show lmFace = List.replicate 455 (some ⟨1, 1, 0⟩) from rfl]
        exact List.length_replicate 455 _
      rw [hE] at h455
      exact absurd h455 (by decide)) rfl rfl
  rw [h]
  norm_num

/-- C6 fails as stated: after a slot emitted a transform on frame 1, a
frame with no detection yields no output at all (rather than returning
the held transform marked not-stale), and no staleness mechanism
exists; the held state is merely left unchanged. -/
theorem c6_counterexample_occlusion :
    (JewelryRenderer.renderEarringsStep
      ((JewelryRenderer.renderEarringsStep ⟨none, none⟩ (some lmFace)).1) none).2 =
      none ∧
    (JewelryRenderer.renderEarringsStep ⟨none, none⟩ (some lmFace)).2 =
      some ⟨⟨1, 1, 0⟩, ⟨1, 1, 0⟩⟩ := by
  exact ⟨rfl, rfl⟩

/-- C6 (amended): on a frame with no detection candidate the earrings
renderer emits nothing and leaves the slot state untouched (so the
last smoothed position is held, not reset); on the next detected frame
smoothing resumes from the held value. The code has no staleness
counter, threshold or flag. -/
theorem c6_occlusion_hold (st st2 : JewelryRenderer.EarringsState)
    (lm : Landmarks) (lq rq e1 e2 : P3)
    (h234 : getLm lm 234 = some lq) (h454 : getLm lm 454 = some rq)
    (h27 : getLm lm 27 = some e1) (h33 : getLm lm 33 = some e2) :
    JewelryRenderer.renderEarringsStep st none = (st, none) ∧
    JewelryRenderer.renderEarringsStep st2 (some lm) =
      (⟨some (JewelryRenderer.smoothPosition st2.left lq JewelryRenderer.smoothingFactor),
        some (JewelryRenderer.smoothPosition st2.right rq JewelryRenderer.smoothingFactor)⟩,
       some ⟨JewelryRenderer.smoothPosition st2.left lq JewelryRenderer.smoothingFactor,
             JewelryRenderer.smoothPosition st2.right rq JewelryRenderer.smoothingFactor⟩) := by
  refine ⟨rfl, ?_⟩
  simp [JewelryRenderer.renderEarringsStep, h234, h454, h27, h33]

/-- C6 witness: the amended theorem applied at the empty slot state and
the full landmark list `lmFace`. -/
theorem c6_occlusion_hold_witness :
    JewelryRenderer.renderEarringsStep ⟨none, none⟩ none = (⟨none, none⟩, none) ∧
    JewelryRenderer.renderEarringsStep ⟨none, none⟩ (some lmFace) =
      (⟨some ⟨1, 1, 0⟩, some ⟨1, 1, 0⟩⟩, some ⟨⟨1, 1, 0⟩, ⟨1, 1, 0⟩⟩) := by
  have h := c6_occlusion_hold ⟨none, none⟩ ⟨none, none⟩ lmFace
    ⟨1, 1, 0⟩ ⟨1, 1, 0⟩ ⟨1, 1, 0⟩ ⟨1, 1, 0⟩ rfl rfl rfl rfl
  exact ⟨h.1, h.2⟩

/-- Helper: indexing past the end of a landmark array gives `none`. -/
theorem getLm_eq_none (lm : Landmarks) (i : ℕ) (h : lm.length ≤ i) :
    getLm lm i = none := by
  unfold getLm
  rw [List.get?_eq_none.mpr h]
  rfl

/-- Helper: a base hand keypoint whose table index (when any) is out of
range of the landmark array is absent. -/
theorem baseKeypoint_eq_none (lm : Landmarks) (name : String)
    (h : ∀ i, HandPoseDetector.handLandmarkNames.findIdx? (fun n => n = name) =
      some i → lm.length ≤ i) :
    HandPoseDetector.baseKeypoint lm name = none := by
  unfold HandPoseDetector.baseKeypoint
  cases hIdx : HandPoseDetector.handLandmarkNames.findIdx? (fun n => n = name) with
  | none => rfl
  | some i => exact getLm_eq_none lm i (h i hIdx)

/-- C7 fails in its failure clause: an empty landmark array does not
fail with any error — the face mapping returns the empty keypoint set
and the hand mapping returns an `ok` (entirely absent) keypoint map;
no `MalformedInputError` exists anywhere in the code. -/
theorem c7_counterexample_empty_not_error :
    FaceLandmarkDetector.extractKeypoints (some []) none =
      ⟨none, none, none, none, none, none, none, none⟩ ∧
    HandPoseDetector.extractKeypointsChecked none (some []) =
      .ok (HandPoseDetector.extractKeypoints []) ∧
    HandPoseDetector.extractKeypoints [] "wrist" = none := by
  refine ⟨rfl, rfl, rfl⟩

/-- C7 (amended): short inputs give partial keypoint sets without
throwing — a hand landmark name whose index is beyond the array is
absent (as are the derived names), and a face array too short for both
ear indices has no ears and no neck base; a wholly absent landmark
array returns the empty set in the face mapping but raises an uncaught
`TypeError` (not a `MalformedInputError`, which does not exist) in the
hand mapping. -/
theorem c7_partial_mapping (lm lmF : Landmarks) (name : String)
    (hun : ∀ i, HandPoseDetector.handLandmarkNames.findIdx? (fun n => n = name) =
      some i → lm.length ≤ i)
    (hnr : name ≠ "ring_position") (hnb : name ≠ "bracelet_position")
    (hnw : name ≠ "watch_position")
    (hlenF : lmF.length ≤ 93) :
    HandPoseDetector.extractKeypoints lm name = none ∧
    (FaceLandmarkDetector.extractKeypoints (some lmF) none).leftEar = none ∧
    (FaceLandmarkDetector.extractKeypoints (some lmF) none).neckBase = none ∧
    FaceLandmarkDetector.extractKeypoints none none =
      ⟨none, none, none, none, none, none, none, none⟩ ∧
    HandPoseDetector.extractKeypointsChecked none none = .error .typeError := by
  refine ⟨?_, ?_, ?_, rfl, rfl⟩
  · unfold HandPoseDetector.extractKeypoints
    rw [if_neg hnr, if_neg hnb, if_neg hnw]
    exact baseKeypoint_eq_none lm name hun
  · cases lmF with
    | nil => rfl
    | cons a as =>
      have hE : (FaceLandmarkDetector.extractKeypoints (some (a :: as)) none).leftEar =
          (getLm (a :: as) 234).orElse (fun _ => getLm (a :: as) 93) := rfl
      rw [hE, getLm_eq_none _ 234 (le_trans hlenF (by norm_num)),
        getLm_eq_none _ 93 hlenF]
      rfl
  · cases lmF with
    | nil => rfl
    | cons a as =>
      have hE : (FaceLandmarkDetector.extractKeypoints (some (a :: as)) none).neckBase =
          (match (getLm (a :: as) 234).orElse (fun _ => getLm (a :: as) 93),
                 (getLm (a :: as) 454).orElse (fun _ => getLm (a :: as) 323) with
           | some l, some r => some (FaceLandmarkDetector.neckBaseOf l r)
           | _, _ => none) := rfl
      rw [hE, getLm_eq_none _ 234 (le_trans hlenF (by norm_num)),
        getLm_eq_none _ 93 hlenF, getLm_eq_none _ 454 (le_trans hlenF (by norm_num)),
        getLm_eq_none _ 323 (le_trans hlenF (by norm_num))]
      rfl

/-- C7 witness: the amended theorem at the empty hand array, a
one-point face array and the name `pinky_tip`. -/
theorem c7_partial_mapping_witness :
    HandPoseDetector.extractKeypoints [] "pinky_tip" = none ∧
    (FaceLandmarkDetector.extractKeypoints (some [some ⟨1, 1, 0⟩]) none).leftEar =
      none ∧
    HandPoseDetector.extractKeypointsChecked none none = .error .typeError := by
  have h := c7_partial_mapping [] [some ⟨1, 1, 0⟩] "pinky_tip"
    (fun i _ => Nat.zero_le i) (by decide) (by decide) (by decide) (by norm_num)
  exact ⟨h.1, h.2.1, h.2.2.2.2⟩

/-- Helper: the estimated shoulder width is nonnegative (a distance
times 3, or the 0.3 fallback). -/
theorem estimateShoulderWidth_nonneg (lm : Landmarks) :
    0 ≤ JewelryRenderer.estimateShoulderWidth lm := by
  rcases h234 : getLm lm 234 with _ | a <;> rcases h454 : getLm lm 454 with _ | b <;>
    simp only [JewelryRenderer.estimateShoulderWidth, h234, h454]
  · norm_num
  · norm_num
  · norm_num
  · unfold JewelryRenderer.calculateDistance
    positivity

/-- C8 fails as stated: with the chin present but the two cheek
landmarks coincident, the necklace resolver still emits a transform,
and its scale factor is exactly 0 — not strictly positive, and not an
absence signal. -/
theorem c8_counterexample_zero_scale :
    (JewelryRenderer.renderNecklaceStep none (some lmFace) (some 2)).2 =
      some ⟨⟨1, 11/10, 0⟩, 0⟩ ∧ ¬ (0 : ℝ) < 0 := by
  constructor
  · have hchin : JewelryRenderer.getNeckPosition lmFace = some ⟨1, 1 + 1/10, 0⟩ := rfl
    have h234 : getLm lmFace 234 = some ⟨1, 1, 0⟩ := rfl
    have h454 : getLm lmFace 454 = some ⟨1, 1, 0⟩ := rfl
    have hdist : JewelryRenderer.calculateDistance ⟨1, 1, 0⟩ ⟨1, 1, 0⟩ = 0 := by
      unfold JewelryRenderer.calculateDistance
      norm_num
    have hscale : JewelryRenderer.necklaceScale lmFace (some 2) = 0 := by
      simp only [JewelryRenderer.necklaceScale, JewelryRenderer.estimateShoulderWidth,
        h234, h454, hdist]
      norm_num
    simp only [JewelryRenderer.renderNecklaceStep, hchin, hscale]
    norm_num [JewelryRenderer.smoothPosition]
  · exact lt_irrefl 0

/-- C8 (amended): no strict positivity is guaranteed.  For nonnegative
`sizeAdjustment` the earrings resolver's scale is strictly positive
(the `|| 0.15` default replaces a zero product), while the necklace
resolver's emitted scale is merely nonnegative and can be exactly 0
(coincident cheek landmarks); resolvers signal absence only for
missing anchor keypoints, never for a degenerate scale. -/
theorem c8_scale_bounds (lm : Landmarks) (st : Option P3) (face : Option Landmarks)
    (adj : ℚ) (p1 p2 : P3)
    (h27 : getLm lm 27 = some p1) (h33 : getLm lm 33 = some p2)
    (hadj : 0 ≤ adj) :
    (∃ s, JewelryRenderer.earringsScale lm (some adj) = some s ∧ 0 < s) ∧
    (∀ o, (JewelryRenderer.renderNecklaceStep st face (some adj)).2 = some o →
      0 ≤ o.scale) := by
  constructor
  · simp only [JewelryRenderer.earringsScale, h27, h33]
    by_cases hz : JewelryRenderer.calculateDistance p1 p2 * (adj : ℝ) = 0
    · exact ⟨3/20, by rw [if_pos hz], by norm_num⟩
    · refine ⟨JewelryRenderer.calculateDistance p1 p2 * (adj : ℝ), by rw [if_neg hz], ?_⟩
      have hd : 0 ≤ JewelryRenderer.calculateDistance p1 p2 := by
        unfold JewelryRenderer.calculateDistance
        positivity
      have ha : (0 : ℝ) ≤ (adj : ℝ) := by exact_mod_cast hadj
      exact lt_of_le_of_ne (mul_nonneg hd ha) (Ne.symm hz)
  · intro o ho
    cases face with
    | none => simp [JewelryRenderer.renderNecklaceStep] at ho
    | some lmF =>
      cases hN : JewelryRenderer.getNeckPosition lmF with
      | none => simp [JewelryRenderer.renderNecklaceStep, hN] at ho
      | some pt =>
        simp only [JewelryRenderer.renderNecklaceStep, hN, Option.some.injEq] at ho
        rw [← ho]
        show 0 ≤ JewelryRenderer.necklaceScale lmF (some adj)
        have h1 := estimateShoulderWidth_nonneg lmF
        have h2 : (0 : ℝ) ≤ (((if adj = 0 then 1 else adj : ℚ)) : ℝ) := by
          by_cases h : adj = 0
          · rw [if_pos h]; norm_num
          · rw [if_neg h]; exact_mod_cast hadj
        exact mul_nonneg h1 h2

/-- C8 witness: the amended theorem at a face whose eye landmarks
coincide (zero eye distance), where the earrings scale is the 0.15
default, and at the concrete necklace input. -/
theorem c8_scale_bounds_witness :
    (∃ s, JewelryRenderer.earringsScale lmFace (some 2) = some s ∧ 0 < s) ∧
    (∀ o, (JewelryRenderer.renderNecklaceStep none (some lmFace) (some 2)).2 =
      some o → 0 ≤ o.scale) := by
  exact c8_scale_bounds lmFace none (some lmFace) 2 ⟨1, 1, 0⟩ ⟨1, 1, 0⟩
    rfl rfl (by norm_num)

/-- Helper: a component over the magnitude has absolute value at most
one when its square is bounded by the squared magnitude. -/
theorem abs_div_sqrt_le_one (a s : ℚ) (hle : ((a : ℝ)) ^ 2 ≤ ((s : ℚ) : ℝ))
    (hpos : (0 : ℝ) < ((s : ℚ) : ℝ)) :
    |(a : ℝ) / Real.sqrt ((s : ℚ) : ℝ)| ≤ 1 := by
  have hsqrt : 0 < Real.sqrt ((s : ℚ) : ℝ) := Real.sqrt_pos.mpr hpos
  rw [abs_div, abs_of_nonneg (Real.sqrt_nonneg _), div_le_one hsqrt]
  calc |(a : ℝ)| = Real.sqrt (((a : ℝ)) ^ 2) := (Real.sqrt_sq_eq_abs _).symm
    _ ≤ Real.sqrt ((s : ℚ) : ℝ) := Real.sqrt_le_sqrt hle

/-- C9: `normalizeVector` maps the zero vector to the zero vector, and
for every input vector each component of the result has absolute value
at most 1 — in particular the result is always a well-defined finite
real vector, never a NaN or an infinity (the guard prevents the only
division by zero). -/
theorem c9_normalize_zero_safe :
    HandPoseDetector.normalizeVector ⟨0, 0, 0⟩ = (⟨0, 0, 0⟩ : R3) ∧
    ∀ v : P3, |(HandPoseDetector.normalizeVector v).x| ≤ 1 ∧
      |(HandPoseDetector.normalizeVector v).y| ≤ 1 ∧
      |(HandPoseDetector.normalizeVector v).z| ≤ 1 := by
  constructor
  · unfold HandPoseDetector.normalizeVector
    norm_num
  · intro v
    by_cases h : (v.x ^ 2 + v.y ^ 2 + v.z ^ 2 : ℚ) = 0
    · unfold HandPoseDetector.normalizeVector
      rw [if_pos h]
      norm_num
    · have hs0 : 0 ≤ (v.x ^ 2 + v.y ^ 2 + v.z ^ 2 : ℚ) := by positivity
      have hspos : (0 : ℝ) < ((v.x ^ 2 + v.y ^ 2 + v.z ^ 2 : ℚ) : ℝ) := by
        have hq : 0 < (v.x ^ 2 + v.y ^ 2 + v.z ^ 2 : ℚ) :=
          lt_of_le_of_ne hs0 (Ne.symm h)
        exact_mod_cast hq
      have hx : |(HandPoseDetector.normalizeVector v).x| ≤ 1 := by
        unfold HandPoseDetector.normalizeVector
        rw [if_neg h]
        refine abs_div_sqrt_le_one v.x _ ?_ hspos
        push_cast
        nlinarith [sq_nonneg ((v.y : ℝ)), sq_nonneg ((v.z : ℝ))]
      have hy : |(HandPoseDetector.normalizeVector v).y| ≤ 1 := by
        unfold HandPoseDetector.normalizeVector
        rw [if_neg h]
        refine abs_div_sqrt_le_one v.y _ ?_ hspos
        push_cast
        nlinarith [sq_nonneg ((v.x : ℝ)), sq_nonneg ((v.z : ℝ))]
      have hz : |(HandPoseDetector.normalizeVector v).z| ≤ 1 := by
        unfold HandPoseDetector.normalizeVector
        rw [if_neg h]
        refine abs_div_sqrt_le_one v.z _ ?_ hspos
        push_cast
        nlinarith [sq_nonneg ((v.x : ℝ)), sq_nonneg ((v.y : ℝ))]
      exact ⟨hx, hy, hz⟩

/-- C10: the hand post-processing is total — both functions are defined
for every prediction, and whenever a required landmark (index 17 is
required by both) is missing from the selected array, or the array is
wholly absent, the internal exception is caught and the fixed
zero-valued defaults are returned: all-zero measurements, and zero
angles with the default unit vectors. -/
theorem c10_total_with_zero_defaults (o1 o2 : Option Landmarks)
    (h : ∀ lm, o1.orElse (fun _ => o2) = some lm → getLm lm 17 = none) :
    HandPoseDetector.calculateHandMeasurements o1 o2 =
      HandPoseDetector.zeroMeasurements ∧
    HandPoseDetector.calculateHandOrientation o1 o2 =
      HandPoseDetector.defaultOrientation := by
  cases ho : o1.orElse (fun _ => o2) with
  | none =>
    constructor
    · simp [HandPoseDetector.calculateHandMeasurements, ho]
    · simp [HandPoseDetector.calculateHandOrientation, ho]
  | some lm =>
    have h17 := h lm ho
    constructor
    · simp [HandPoseDetector.calculateHandMeasurements, ho, h17]
    · rcases e0 : getLm lm 0 with _ | w
      · simp [HandPoseDetector.calculateHandOrientation, ho, e0]
      · rcases e9 : getLm lm 9 with _ | m9
        · simp [HandPoseDetector.calculateHandOrientation, ho, e0, e9]
        · rcases e12 : getLm lm 12 with _ | m12
          · simp [HandPoseDetector.calculateHandOrientation, ho, e0, e9, e12]
          · rcases e5 : getLm lm 5 with _ | m5
            · simp [HandPoseDetector.calculateHandOrientation, ho, e0, e9, e12, e5]
            · simp [HandPoseDetector.calculateHandOrientation, ho, e0, e9, e12, e5,
                h17]

/-- C10 witness: the theorem at an absent first field and an empty
landmark array. -/
theorem c10_total_with_zero_defaults_witness :
    HandPoseDetector.calculateHandMeasurements none (some []) =
      HandPoseDetector.zeroMeasurements ∧
    HandPoseDetector.calculateHandOrientation none (some []) =
      HandPoseDetector.defaultOrientation := by
  exact c10_total_with_zero_defaults none (some [])
    (fun lm hlm => by
      have hE : ([] : Landmarks) = lm := Option.some.inj hlm
      rw [← hE]
      rfl)
